import Mathlib

/-!
Verification of the pumpfun buy/sell bot orchestration code.

The development shallowly embeds the TypeScript sources (src/constants.ts,
src/utils.ts, src/main.ts).  SOL and token quantities are modelled as exact
rationals; JavaScript Math.round is modelled as floor at one half above.
The orchestrators (beginBuying, beginSelling, the main menu dispatcher) are
embedded as pure functions from their environment (balance oracles, chain
responses, persisted checkpoint) to the ordered list of external operations
they issue, called the effect trace.  Fallible file reads and JSON parses
are modelled with Except.
-/

namespace PumpBot

/-- From constants.ts: one SOL is 10^9 lamports. -/
def LAMPORTS_PER_SOL : ℚ := 1000000000

/-- From constants.ts: SOL_BUY_MIN = 0.01. -/
def SOL_BUY_MIN : ℚ := 1/100

/-- From constants.ts: SOL_BUY_MAX = 0.03. -/
def SOL_BUY_MAX : ℚ := 3/100

/-- From constants.ts: PLATFORM_FEE = 0.02. -/
def PLATFORM_FEE : ℚ := 1/50

/-- From constants.ts: SOL_RENT = 0.0015, the minimum balance that is
documented to remain in a solana account. -/
def SOL_RENT : ℚ := 3/2000

/-- From constants.ts: PAUSE_ON_INTERRUPTION = false.  The flag is declared
with the comment that true should pause buying when other transactions
interfere; no source file ever reads it. -/
def PAUSE_ON_INTERRUPTION : Bool := false

/-- From constants.ts: the target token mint address. -/
def TOKEN_MINT : String := "Db34g818Gt5JqJAAsNbMZA3qpEFtBuHQHPqBRiyTpump"

/-- From constants.ts: PRIVATE_KEY, the main wallet secret loaded from the
environment; its concrete value is irrelevant to the orchestration logic, so
it is modelled as a fixed placeholder string. -/
def PRIVATE_KEY : String := "MAIN_WALLET_SECRET"

/-- The public key of the main wallet (owner in main.ts), derived from
PRIVATE_KEY by the signing library; modelled as a fixed placeholder. -/
def OWNER_PUBLIC_KEY : String := "MAIN_WALLET_PUB"

/-- From utils.ts: WalletInfoType. -/
structure WalletInfoType where
  privateKey : String
  publicKey : String
deriving DecidableEq, Repr

/-- From utils.ts: PausedWalletInfoType, a wallet together with the SOL
amount that was queued for it when a buy run was interrupted. -/
structure PausedWalletInfoType where
  privateKey : String
  publicKey : String
  amount : ℚ
deriving DecidableEq, Repr

/-- JavaScript Math.round: round half toward positive infinity. -/
def jsRound (q : ℚ) : ℤ := ⌊q + 1/2⌋

/-- From utils.ts generateRandomAmounts (lines 223-235): for each index an
amount `Math.round((rand * (MAX - MIN) + MIN) * LAMPORTS_PER_SOL) /
LAMPORTS_PER_SOL`.  The stream of Math.random() results is passed in as
`rand`. -/
def generateRandomAmounts (rand : ℕ → ℚ) (numberOfWallets : ℕ) : List ℚ :=
  (List.range numberOfWallets).map (fun index =>
    ((jsRound ((rand index * (SOL_BUY_MAX - SOL_BUY_MIN) + SOL_BUY_MIN) *
      LAMPORTS_PER_SOL) : ℤ) : ℚ) / LAMPORTS_PER_SOL)

/-- From utils.ts getPausedState (lines 197-206): read paused.json and parse
it; on any failure of the read or of the parse the catch block logs and
returns the empty list.  The file read and the JSON parse are the two
fallible steps, passed in as `readFile` and `parseJson`; the total return
type records that the function itself never raises to its caller. -/
def getPausedState (readFile : Except String String)
    (parseJson : String → Except String (List PausedWalletInfoType)) :
    List PausedWalletInfoType :=
  match readFile with
  | .error _ => []
  | .ok contents =>
    match parseJson contents with
    | .error _ => []
    | .ok wallets => wallets

/-- One external operation issued by the orchestrators, in issue order.
`solTransfer` and `tokenTransfer` carry the sender secret, the receiver
public key and the amount; `fetchLatestTx` records the mint queried and the
signature the chain reported (main.ts discards this value); `buyTrade` and
`sellTrade` carry the mint, the trading wallet secret and the order size;
`writeCheckpoint` is a setPausedState call; `storeWallets` is a wallets.json
overwrite; `delay` is a waitSeconds call (utils.ts defines waitSeconds but
the orchestrators in main.ts never invoke it, so no trace below contains a
delay). -/
inductive Effect where
  | solTransfer (fromSecret : String) (toPub : String) (amount : ℚ)
  | tokenTransfer (fromSecret : String) (toPub : String) (mint : String) (amount : ℚ)
  | fetchLatestTx (mint : String) (observed : Option String)
  | buyTrade (mint : String) (walletSecret : String) (amount : ℚ)
  | sellTrade (mint : String) (walletSecret : String) (amount : ℚ)
  | writeCheckpoint (wallets : List PausedWalletInfoType)
  | storeWallets (count : ℕ)
  | delay (seconds : ℚ)
deriving DecidableEq, Repr

/-- From utils.ts setPausedState (lines 209-220): overwrite paused.json with
the given list.  No function in main.ts ever calls it. -/
def setPausedState (wallets : List PausedWalletInfoType) : Effect :=
  Effect.writeCheckpoint wallets

def isBuyTrade : Effect → Bool
  | .buyTrade _ _ _ => true
  | _ => false

def isWriteCheckpoint : Effect → Bool
  | .writeCheckpoint _ => true
  | _ => false

def isDelay : Effect → Bool
  | .delay _ => true
  | _ => false

def isSolTransferFrom (secret : String) : Effect → Bool
  | .solTransfer f _ _ => f == secret
  | _ => false

def isFetchObserving (sig : String) : Effect → Bool
  | .fetchLatestTx _ o => o == some sig
  | _ => false

/-- Indexing helper: wallets[i] with an out-of-range default. -/
def walletAt (wallets : List WalletInfoType) (index : ℕ) : WalletInfoType :=
  wallets.getD index ⟨"", ""⟩

/-- The buy-order size from main.ts lines 181-187: the source text is
`(balance - index === 0 ? neededFeeForLastAccumulation : 0) *
(1 - PLATFORM_FEE) - 30000`.  In JavaScript subtraction binds tighter than
===, so the condition is `(balance - index) === 0`. -/
def buyTradeAmount (neededFeeForLastAccumulation balance : ℚ) (index : ℕ) : ℚ :=
  (if balance - (index : ℚ) = 0 then neededFeeForLastAccumulation else 0) *
    (1 - PLATFORM_FEE) - 30000

/-- From main.ts beginBuying (lines 160-188).  First loop: for each index,
initiate a SOL transfer of amounts[index] from the main wallet to
wallets[index]; the calls are not awaited, so the per-transfer outcome
(`fundingOutcome`, true when the transfer would succeed) cannot influence
anything that follows, and no delay is inserted between transfers.  Then
`neededFeeForLastAccumulation` is the amount total times PLATFORM_FEE.
Second loop: for each index, call getLatestTokenTransaction on the mint
(the chain response `latestSig index` is discarded), query the wallet
balance, and place a buy order of `buyTradeAmount`. -/
def beginBuying (fundingOutcome : ℕ → Bool) (latestSig : ℕ → Option String)
    (balanceOf : String → ℚ) (wallets : List WalletInfoType)
    (amounts : List ℚ) : List Effect :=
  let neededFeeForLastAccumulation :=
    (amounts.foldl (fun sum currentVal => sum + currentVal) 0) * PLATFORM_FEE
  ((List.range wallets.length).map (fun index =>
    Effect.solTransfer PRIVATE_KEY (walletAt wallets index).publicKey
      (amounts.getD index 0)))
  ++ ((List.range wallets.length).flatMap (fun index =>
    [Effect.fetchLatestTx TOKEN_MINT (latestSig index),
     Effect.buyTrade TOKEN_MINT (walletAt wallets index).privateKey
       (buyTradeAmount neededFeeForLastAccumulation
         (balanceOf (walletAt wallets index).publicKey) index)]))

/-- From main.ts beginSelling (lines 191-223).  For each index from 1 on:
query the token balance of wallets[index] and transfer that balance (with no
positivity test) to wallets[0].  Then query the token balance of wallets[0]
and place a sell order for it, query the SOL balance of wallets[0] and
transfer that full balance (with no positivity test and no reserve
subtraction) to the main wallet. -/
def beginSelling (tokenBalanceOf : String → ℚ) (balanceOf : String → ℚ)
    (wallets : List WalletInfoType) : List Effect :=
  ((List.range' 1 (wallets.length - 1)).map (fun index =>
    Effect.tokenTransfer (walletAt wallets index).privateKey
      (walletAt wallets 0).publicKey TOKEN_MINT
      (tokenBalanceOf (walletAt wallets index).publicKey)))
  ++ [Effect.sellTrade TOKEN_MINT (walletAt wallets 0).privateKey
        (tokenBalanceOf (walletAt wallets 0).publicKey),
      Effect.solTransfer (walletAt wallets 0).privateKey OWNER_PUBLIC_KEY
        (balanceOf (walletAt wallets 0).publicKey)]

/-- From main.ts main, buy branch (lines 299-315): draw fresh amounts for
the whole pool, query the main wallet balance, sum the amounts, and reject
with the insufficient-balance diagnostic before any transfer when the sum
exceeds the balance; otherwise run beginBuying.  The result pairs the
effect trace with the list of error messages printed. -/
def buyAction (rand : ℕ → ℚ) (fundingOutcome : ℕ → Bool)
    (latestSig : ℕ → Option String) (balanceOf : String → ℚ)
    (wallets : List WalletInfoType) : List Effect × List String :=
  if balanceOf OWNER_PUBLIC_KEY <
      (generateRandomAmounts rand wallets.length).foldl
        (fun sum currentVal => sum + currentVal) 0 then
    ([], ["Insufficient balance in the main wallet."])
  else
    (beginBuying fundingOutcome latestSig balanceOf wallets
      (generateRandomAmounts rand wallets.length), [])

/-- The menu action selected in main.ts main. -/
inductive Action where
  | generate (count : ℤ)
  | buy
  | sell
  | resume
  | invalid
deriving DecidableEq, Repr

/-- From main.ts main (lines 261-322): dispatch on the selected action.
generate validates the count and overwrites wallets.json; buy runs
buyAction; sell runs beginSelling; the resume branch (lines 318-319) is
empty in the source, so it issues no effect and prints nothing — in
particular the persisted `checkpoint` is never read, processed or cleared.
The checkpoint parameter is the content of paused.json available to the
process. -/
def mainRun (checkpoint : List PausedWalletInfoType)
    (wallets : List WalletInfoType) (rand : ℕ → ℚ)
    (fundingOutcome : ℕ → Bool) (latestSig : ℕ → Option String)
    (balanceOf : String → ℚ) (tokenBalanceOf : String → ℚ)
    (action : Action) : List Effect × List String :=
  match action with
  | .generate count =>
    if count ≤ 0 then ([], ["Invalid amount. Please enter a positive number."])
    else ([Effect.storeWallets count.toNat], [])
  | .buy => buyAction rand fundingOutcome latestSig balanceOf wallets
  | .sell => (beginSelling tokenBalanceOf balanceOf wallets, [])
  | .resume => ([], [])
  | .invalid => ([], ["Invalid option. Please choose a valid option."])

/-- A five-wallet pool used to evaluate concrete runs. -/
def sampleWallets5 : List WalletInfoType :=
  [⟨"KEY0", "PUB0"⟩, ⟨"KEY1", "PUB1"⟩, ⟨"KEY2", "PUB2"⟩,
   ⟨"KEY3", "PUB3"⟩, ⟨"KEY4", "PUB4"⟩]

/-- A three-wallet pool used to evaluate concrete runs. -/
def sampleWallets3 : List WalletInfoType :=
  [⟨"KEY0", "PUB0"⟩, ⟨"KEY1", "PUB1"⟩, ⟨"KEY2", "PUB2"⟩]

/-- A two-wallet pool used to evaluate concrete runs. -/
def sampleWalletsAB : List WalletInfoType :=
  [⟨"KEYA", "PUBA"⟩, ⟨"KEYB", "PUBB"⟩]

/-- A one-wallet pool used to evaluate concrete runs. -/
def sampleWallet0 : List WalletInfoType := [⟨"KEY0", "PUB0"⟩]

/-- Chain responses where the latest transaction on the mint observed at
iteration 2 carries a third-party signature different from the signature of
every trade this bot submits. -/
def interferenceSig : ℕ → Option String := fun index =>
  if index = 2 then some ("THIRD_PARTY_SIG") else some ("BOT_OWN_SIG")

/-- Planned amounts for the five-wallet pool. -/
def sampleAmounts5 : List ℚ := [1/100, 1/100, 1/100, 1/100, 1/100]

/-- Planned amounts for the two-wallet pool. -/
def sampleAmountsAB : List ℚ := [1/100, 1/50]

/-- The trace of a five-wallet buy run in which a third-party transaction on
the mint is observed at iteration 2. -/
def buyTraceInterfered : List Effect :=
  beginBuying (fun _ => true) interferenceSig (fun _ => 1/50)
    sampleWallets5 sampleAmounts5

/-- Funding outcomes where the very first funding transfer fails. -/
def failFirstTransfer : ℕ → Bool := fun index => index != 0

/-- The trace of a two-wallet buy run whose first funding transfer fails. -/
def fundingTraceFailed : List Effect :=
  beginBuying failFirstTransfer (fun _ => some ("BOT_OWN_SIG")) (fun _ => 1/50)
    sampleWalletsAB sampleAmountsAB

/-- The checkpoint left by an interrupted run over wallets 2, 3, 4. -/
def sampleCheckpoint : List PausedWalletInfoType :=
  [⟨"KEY2", "PUB2", 1/100⟩, ⟨"KEY3", "PUB3", 1/100⟩, ⟨"KEY4", "PUB4", 1/100⟩]

/-- Token balances in which wallet 1 holds zero tokens and the others hold
five. -/
def zeroW1TokenBal : String → ℚ := fun pub => if pub = "PUB1" then 0 else 5

/-- SOL balances in which wallet 1 holds exactly the rent reserve, so its
surplus is zero, and the others hold one SOL. -/
def zeroW1SolBal : String → ℚ := fun pub => if pub = "PUB1" then SOL_RENT else 1

/-- The trace of a sell run over three wallets where wallet 1 has zero token
balance and zero SOL surplus. -/
def sellTraceZeroW1 : List Effect :=
  beginSelling zeroW1TokenBal zeroW1SolBal sampleWallets3

/-- The trace of a sell run over one wallet whose SOL balance is zero, so
that balance minus the rent reserve is negative. -/
def sellTraceZeroBal : List Effect :=
  beginSelling (fun _ => 0) (fun _ => 0) sampleWallet0

/-- C8: for every n > 0 and every stream of random draws in [0, 1), the
amount generator returns exactly n values, each lying within the configured
[SOL_BUY_MIN, SOL_BUY_MAX] SOL range after rounding to one lamport. -/
theorem generateRandomAmounts_length_and_bounds (rand : ℕ → ℚ) (n : ℕ)
    (hn : 0 < n) (hr : ∀ i, 0 ≤ rand i ∧ rand i < 1) :
    (generateRandomAmounts rand n).length = n ∧
      ∀ x ∈ generateRandomAmounts rand n, SOL_BUY_MIN ≤ x ∧ x ≤ SOL_BUY_MAX := by
  refine ⟨by simp [generateRandomAmounts], ?_⟩
  intro x hx
  simp only [generateRandomAmounts, List.mem_map, List.mem_range] at hx
  obtain ⟨i, -, rfl⟩ := hx
  obtain ⟨h0, h1⟩ := hr i
  set q : ℚ :=
    (rand i * (SOL_BUY_MAX - SOL_BUY_MIN) + SOL_BUY_MIN) * LAMPORTS_PER_SOL
    with hq
  have hq1 : (10000000 : ℚ) ≤ q := by
    rw [hq, SOL_BUY_MAX, SOL_BUY_MIN, LAMPORTS_PER_SOL]
    nlinarith
  have hq2 : q < 30000000 := by
    rw [hq, SOL_BUY_MAX, SOL_BUY_MIN, LAMPORTS_PER_SOL]
    nlinarith
  have hz1 : (10000000 : ℤ) ≤ jsRound q := by
    rw [jsRound]
    refine Int.le_floor.mpr ?_
    push_cast
    linarith
  have hz2 : jsRound q ≤ 30000000 := by
    have hf : ((jsRound q : ℤ) : ℚ) ≤ q + 1/2 := by
      rw [jsRound]
      exact Int.floor_le _
    have hlt : ((jsRound q : ℤ) : ℚ) < ((30000001 : ℤ) : ℚ) := by
      push_cast
      linarith
    have := Int.cast_lt.mp hlt
    omega
  constructor
  · rw [SOL_BUY_MIN, LAMPORTS_PER_SOL,
      le_div_iff₀ (by norm_num : (0:ℚ) < 1000000000)]
    have hc : ((10000000 : ℤ) : ℚ) ≤ ((jsRound q : ℤ) : ℚ) := Int.cast_le.mpr hz1
    push_cast at hc ⊢
    linarith
  · rw [SOL_BUY_MAX, LAMPORTS_PER_SOL,
      div_le_iff₀ (by norm_num : (0:ℚ) < 1000000000)]
    have hc : ((jsRound q : ℤ) : ℚ) ≤ ((30000000 : ℤ) : ℚ) := Int.cast_le.mpr hz2
    push_cast at hc ⊢
    linarith

/-- Witness for C8 at n = 3 and the constant-zero random stream. -/
theorem generateRandomAmounts_length_and_bounds_witness :
    (generateRandomAmounts (fun _ => 0) 3).length = 3 :=
  (generateRandomAmounts_length_and_bounds (fun _ => 0) 3 (by norm_num)
    (fun _ => ⟨le_refl 0, by norm_num⟩)).1

/-- C9: the buy-size expression parses as (balance - index) === 0, so for
every wallet whose balance differs from its index the conditional yields 0
and the submitted amount is the constant -30000, independent of the
balance. -/
theorem buy_amount_constant_neg30000 (neededFeeForLastAccumulation balance : ℚ)
    (index : ℕ) (h : balance ≠ (index : ℚ)) :
    buyTradeAmount neededFeeForLastAccumulation balance index = -30000 := by
  unfold buyTradeAmount
  rw [if_neg (sub_ne_zero_of_ne h)]
  ring

/-- Witness for C9 at fee 1/1000, balance 7, index 1. -/
theorem buy_amount_constant_neg30000_witness :
    buyTradeAmount (1/1000) 7 1 = -30000 :=
  buy_amount_constant_neg30000 (1/1000) 7 1 (by norm_num)

/-- C10: whenever the paused.json read fails or its contents fail to parse,
getPausedState returns the empty list; its total return type records that no
error ever reaches the caller, so a read failure is indistinguishable from
an absent paused run. -/
theorem getPausedState_failure_empty (readFile : Except String String)
    (parseJson : String → Except String (List PausedWalletInfoType))
    (h : ∀ contents wallets, readFile = Except.ok contents →
      parseJson contents ≠ Except.ok wallets) :
    getPausedState readFile parseJson = [] := by
  cases hr : readFile with
  | error e => simp [getPausedState]
  | ok contents =>
    cases hp : parseJson contents with
    | error e => simp [getPausedState, hp]
    | ok wallets => exact absurd hp (h contents wallets hr)

/-- Witness for C10 at a missing file and an always-failing parse. -/
theorem getPausedState_failure_empty_witness :
    getPausedState (Except.error ("ENOENT"))
      (fun _ => Except.error ("invalid JSON")) = [] :=
  getPausedState_failure_empty (Except.error ("ENOENT"))
    (fun _ => Except.error ("invalid JSON"))
    (fun _ _ hc => Except.noConfusion hc)

/-- C7: whenever the sum of the generated amounts exceeds the main wallet
balance, the buy action stops with the insufficient-balance diagnostic and
an empty effect trace: no funding transfer and no trade is issued. -/
theorem insufficient_balance_rejects (rand : ℕ → ℚ) (fundingOutcome : ℕ → Bool)
    (latestSig : ℕ → Option String) (balanceOf : String → ℚ)
    (wallets : List WalletInfoType)
    (h : balanceOf OWNER_PUBLIC_KEY <
      (generateRandomAmounts rand wallets.length).foldl
        (fun sum currentVal => sum + currentVal) 0) :
    buyAction rand fundingOutcome latestSig balanceOf wallets =
      ([], ["Insufficient balance in the main wallet."]) := by
  unfold buyAction
  rw [if_pos h]

/-- Witness for C7: one wallet, draws forcing the maximal amount 0.03, main
wallet balance 0. -/
theorem insufficient_balance_rejects_witness :
    buyAction (fun _ => 1) (fun _ => true) (fun _ => none) (fun _ => 0)
      sampleWallet0 = ([], ["Insufficient balance in the main wallet."]) :=
  insufficient_balance_rejects (fun _ => 1) (fun _ => true) (fun _ => none)
    (fun _ => 0) sampleWallet0 (by
      norm_num [sampleWallet0, generateRandomAmounts, jsRound, SOL_BUY_MIN,
        SOL_BUY_MAX, LAMPORTS_PER_SOL, List.range_succ])

/-- C1: evaluating the buy orchestrator on five wallets in an environment
where the latest mint transaction observed at iteration 2 carries a
third-party signature different from every signature of this bot: the trace
records that differing observation, still submits a buy trade for all five
wallets, and never writes a checkpoint, because main.ts discards the fetched
signature, never consults PAUSE_ON_INTERRUPTION and never calls
setPausedState. -/
theorem buying_ignores_interference :
    buyTraceInterfered.countP (isFetchObserving ("THIRD_PARTY_SIG")) = 1 ∧
    buyTraceInterfered.countP isBuyTrade = 5 ∧
    buyTraceInterfered.countP isWriteCheckpoint = 0 :=
  ⟨rfl, rfl, rfl⟩

/-- C2: evaluating the menu dispatcher on the resume action while the
persisted checkpoint holds three wallets: the resume branch of main.ts is
empty, so no effect is issued (the checkpoint is neither processed nor
cleared) and no message, in particular no nothing-to-resume report, is
printed. -/
theorem resume_branch_noop :
    mainRun sampleCheckpoint sampleWallets5 (fun _ => 0) (fun _ => true)
      interferenceSig (fun _ => 1/50) (fun _ => 0) Action.resume = ([], []) ∧
    sampleCheckpoint.length = 3 :=
  ⟨rfl, rfl⟩

/-- C3: evaluating the buy orchestrator on two wallets when the first
funding transfer fails: the trace is identical to the all-successful trace,
the second funding transfer is still issued, both buy trades still run and
no inter-transaction delay is ever inserted — the funding calls are not
awaited, so a failure can neither stop later transfers nor prevent the
trading phase. -/
theorem funding_fire_and_forget :
    fundingTraceFailed =
      beginBuying (fun _ => true) (fun _ => some ("BOT_OWN_SIG"))
        (fun _ => 1/50) sampleWalletsAB sampleAmountsAB ∧
    fundingTraceFailed[1]? =
      some (Effect.solTransfer PRIVATE_KEY ("PUBB") (1/50)) ∧
    fundingTraceFailed.countP isBuyTrade = 2 ∧
    fundingTraceFailed.countP isDelay = 0 :=
  ⟨rfl, rfl, rfl, rfl⟩

/-- C4: at balance 0.05 SOL and index 1 the submitted buy amount is the
constant -30000 even though balance minus SOL_RENT is positive: the code
never computes a spendable amount, never skips a wallet, and the reserve
constant plays no part in the trade size. -/
theorem trade_size_ignores_reserve :
    buyTradeAmount (1/1000) (1/20) 1 = -30000 ∧ (0:ℚ) < 1/20 - SOL_RENT := by
  refine ⟨?_, by rw [SOL_RENT]; norm_num⟩
  unfold buyTradeAmount
  split
  · next hvac =>
      exfalso
      push_cast at hvac
      norm_num at hvac
  · ring

/-- Counterexample for C5: in the sell run where wallet 1 holds zero tokens
and exactly the rent reserve in SOL, the first consolidation effect is a
token transfer of amount 0 from wallet 1 — a transfer is issued although
the wallet has zero token balance and zero SOL surplus. -/
theorem sell_zero_balance_still_transfers :
    sellTraceZeroW1[0]? =
      some (Effect.tokenTransfer ("KEY1") ("PUB0") TOKEN_MINT 0) ∧
    zeroW1TokenBal ("PUB1") = 0 ∧ zeroW1SolBal ("PUB1") - SOL_RENT = 0 := by
  refine ⟨rfl, rfl, ?_⟩
  show SOL_RENT - SOL_RENT = 0
  exact sub_self _

/-- C5 (amended): for every wallet at index 1 and after, the consolidation
pass unconditionally issues a token transfer of that wallet's queried token
balance — zero included — to wallet 0, never issues a SOL transfer from
that wallet, raises no error, and proceeds through the whole loop. -/
theorem beginSelling_unconditional_consolidation
    (tokenBalanceOf balanceOf : String → ℚ) (wallets : List WalletInfoType)
    (index : ℕ) (h1 : 1 ≤ index) (h2 : index < wallets.length)
    (hkey : (walletAt wallets 0).privateKey ≠
      (walletAt wallets index).privateKey) :
    Effect.tokenTransfer (walletAt wallets index).privateKey
        (walletAt wallets 0).publicKey TOKEN_MINT
        (tokenBalanceOf (walletAt wallets index).publicKey)
      ∈ beginSelling tokenBalanceOf balanceOf wallets ∧
    (beginSelling tokenBalanceOf balanceOf wallets).countP
      (isSolTransferFrom (walletAt wallets index).privateKey) = 0 := by
  constructor
  · unfold beginSelling
    refine List.mem_append_left _ (List.mem_map.mpr ⟨index, ?_, rfl⟩)
    rw [List.mem_range'_1]
    omega
  · rw [List.countP_eq_zero]
    intro e he
    unfold beginSelling at he
    rcases List.mem_append.mp he with hl | hr
    · obtain ⟨j, -, rfl⟩ := List.mem_map.mp hl
      simp [isSolTransferFrom]
    · simp only [List.mem_cons, List.not_mem_nil, or_false] at hr
      rcases hr with rfl | rfl
      · simp [isSolTransferFrom]
      · simp only [isSolTransferFrom, beq_iff_eq]
        exact fun hc => hkey hc

/-- Witness for C5 (amended) at wallet index 1 of the three-wallet pool. -/
theorem beginSelling_unconditional_consolidation_witness :
    Effect.tokenTransfer ("KEY1") ("PUB0") TOKEN_MINT (zeroW1TokenBal ("PUB1"))
      ∈ beginSelling zeroW1TokenBal zeroW1SolBal sampleWallets3 ∧
    (beginSelling zeroW1TokenBal zeroW1SolBal sampleWallets3).countP
      (isSolTransferFrom ("KEY1")) = 0 :=
  beginSelling_unconditional_consolidation zeroW1TokenBal zeroW1SolBal
    sampleWallets3 1 (by norm_num) (by norm_num [sampleWallets3]) (by decide)

/-- Counterexample for C6: in the sell run over one wallet with SOL balance
0, the final sweep transfer is issued with amount 0 although balance minus
SOL_RENT is negative — the transfer is neither conditional on a positive
surplus nor reduced by the reserve. -/
theorem sweep_issued_at_nonpositive_surplus :
    sellTraceZeroBal[1]? =
      some (Effect.solTransfer ("KEY0") OWNER_PUBLIC_KEY 0) ∧
    (0 : ℚ) - SOL_RENT < 0 := by
  refine ⟨rfl, ?_⟩
  rw [SOL_RENT]
  norm_num

/-- C6 (amended): after the sell order the final sweep, with no settle
delay, unconditionally transfers the full queried SOL balance of wallet 0
(not the balance minus the reserve) to the main wallet, as the last effect
of the sell run. -/
theorem beginSelling_sweep_full_balance (tokenBalanceOf balanceOf : String → ℚ)
    (wallets : List WalletInfoType) (h : 0 < wallets.length) :
    (beginSelling tokenBalanceOf balanceOf wallets).getLast? =
      some (Effect.solTransfer (walletAt wallets 0).privateKey OWNER_PUBLIC_KEY
        (balanceOf (walletAt wallets 0).publicKey)) ∧
    (beginSelling tokenBalanceOf balanceOf wallets).countP isDelay = 0 := by
  constructor
  · unfold beginSelling
    rw [show ∀ (l : List Effect) (a b : Effect),
        l ++ [a, b] = (l ++ [a]) ++ [b] from fun l a b => by simp]
    exact List.getLast?_concat _
  · rw [List.countP_eq_zero]
    intro e he
    unfold beginSelling at he
    rcases List.mem_append.mp he with hl | hr
    · obtain ⟨j, -, rfl⟩ := List.mem_map.mp hl
      simp [isDelay]
    · simp only [List.mem_cons, List.not_mem_nil, or_false] at hr
      rcases hr with rfl | rfl
      · simp [isDelay]
      · simp [isDelay]

/-- Witness for C6 (amended) at the one-wallet pool with balance 1 SOL. -/
theorem beginSelling_sweep_full_balance_witness :
    (beginSelling (fun _ => 5) (fun _ => 1) sampleWallet0).getLast? =
      some (Effect.solTransfer ("KEY0") OWNER_PUBLIC_KEY 1) ∧
    (beginSelling (fun _ => 5) (fun _ => 1) sampleWallet0).countP isDelay = 0 :=
  beginSelling_sweep_full_balance (fun _ => 5) (fun _ => 1) sampleWallet0
    (by decide)

end PumpBot
